import Mathlib

/-!
Shallow embedding of the Website-Traffic-Trend-Analyzer repository
(`src/index.py`).

The program is a Dash dashboard over a pandas DataFrame with columns
`date`, `page`, `visits`, `device`, `location`.  Its single piece of
logic is the callback `update_dashboard(selected_devices,
selected_locations)`, which

  1. copies the global DataFrame `df`,
  2. filters it by `isin(selected_devices)` when `selected_devices`
     is truthy (a non-`None`, non-empty list), and likewise for
     `selected_locations`,
  3. builds three aggregate tables:
       - `traffic_by_date = filtered_df.groupby("date")["visits"].sum()`
       - `top_pages = filtered_df.groupby("page")["visits"].sum()
            .sort_values(by="visits", ascending=False)`
       - `device_data = filtered_df.groupby("device")["visits"].sum()`
     and wraps each table in a plotly figure.

Pandas semantics captured here:
  - `groupby(key)` with the default `sort=True` produces one row per
    distinct key, keys sorted ascending, each row carrying the sum of
    `visits` over the rows with that key;
  - `sort_values(by=col, ascending=False)` is implemented in pandas
    (`nargsort`) by reversing the rows, argsorting them ascending and
    reversing the result, so with a stable underlying argsort rows
    with equal keys keep their pre-sort order; the ascending argsort
    is modelled as a stable sort, which is the observable behaviour of
    numpy's sort on small arrays;
  - `df.copy()` yields an independent value, so the global `df` is
    never written.

Dates are modelled as naturals ordered chronologically (e.g. the
ISO date 2025-07-01 is encoded as 20250701); pandas Timestamps are a
totally ordered type and only their order matters to this program.
The plotly figure wrappers are presentation-only; the embedding keeps
the data table each figure carries.
-/

/-- One row of the traffic DataFrame `df` (`src/index.py` lines 7-17). -/
structure Record where
  date : Nat
  page : String
  visits : Nat
  device : String
  location : String
deriving DecidableEq, Repr

/-- Python truthiness of a Dash multi-dropdown value: `None` and the
empty list are falsy, a non-empty list is truthy (`if selected_devices:`,
lines 90 and 94). -/
def truthy : Option (List String) → Bool
  | none => false
  | some l => !l.isEmpty

/-- Lines 87-95: `filtered_df = df.copy()`, then
`filtered_df[filtered_df["device"].isin(selected_devices)]` when the
device selection is truthy, then the same for `location`. -/
def filterRecords (df : List Record) (selected_devices selected_locations : Option (List String)) :
    List Record :=
  let f1 := if truthy selected_devices then
      df.filter (fun r => (selected_devices.getD []).contains r.device)
    else df
  if truthy selected_locations then
    f1.filter (fun r => (selected_locations.getD []).contains r.location)
  else f1

/-- Sum of `visits` over the rows of `df` whose key equals `k`
(one group of a pandas `groupby(key)["visits"].sum()`). -/
def keyTotal {α : Type} [DecidableEq α] (key : Record → α) (df : List Record) (k : α) : Nat :=
  ((df.filter (fun r => decide (key r = k))).map Record.visits).sum

/-- Pandas `df.groupby(key)["visits"].sum().reset_index()` with the
default `sort=True`: one row `(k, total)` per distinct key, keys sorted
ascending (lines 100, 109, 120). -/
def groupSum {α : Type} [DecidableEq α] [LinearOrder α] (key : Record → α) (df : List Record) :
    List (α × Nat) :=
  ((df.map key).dedup.insertionSort (· ≤ ·)).map (fun k => (k, keyTotal key df k))

/-- Pandas `sort_values(by="visits", ascending=False)` (line 109):
pandas' `nargsort` reverses the rows, argsorts them ascending on the
`visits` column, and reverses the result again (the double reversal
that makes descending sorts stable for a stable underlying argsort;
the argsort is modelled as a stable sort, the observable behaviour of
numpy's sort on arrays this small). -/
def sort_values_desc (l : List (String × Nat)) : List (String × Nat) :=
  (l.reverse.insertionSort (fun p q => p.2 ≤ q.2)).reverse

/-- The three aggregate tables carried by the three figures the
callback returns (trend line chart, top-pages bar chart, device pie
chart). -/
structure DashboardData where
  trend : List (Nat × Nat)
  topPages : List (String × Nat)
  deviceShare : List (String × Nat)
deriving DecidableEq, Repr

/-- The callback `update_dashboard` (lines 80-125): filter the base
DataFrame by the two selections, then group-and-sum by date, by page
(sorted by visits descending) and by device. -/
def update_dashboard (df : List Record) (selected_devices selected_locations : Option (List String)) :
    DashboardData :=
  let filtered_df := filterRecords df selected_devices selected_locations
  { trend := groupSum Record.date filtered_df
    topPages := sort_values_desc (groupSum Record.page filtered_df)
    deviceShare := groupSum Record.device filtered_df }

/-- Zip five equal-length columns into rows, the row form of the
column dictionary passed to `pd.DataFrame` (line 17). -/
def zipRecords : List Nat → List String → List Nat → List String → List String → List Record
  | d :: ds, p :: ps, v :: vs, e :: es, l :: ls =>
      ⟨d, p, v, e, l⟩ :: zipRecords ds ps vs es ls
  | _, _, _, _, _ => []

/-- Construction of the base DataFrame from a column dictionary,
`df = pd.DataFrame(sample_data)` (lines 7-17).  `pd.DataFrame` raises
only when the columns have unequal lengths; it performs no emptiness
check, so five empty columns construct an empty DataFrame. -/
def mkDataFrame (dates : List Nat) (pages : List String) (visits : List Nat)
    (devices locations : List String) : Option (List Record) :=
  if dates.length = pages.length ∧ dates.length = visits.length ∧
      dates.length = devices.length ∧ dates.length = locations.length then
    some (zipRecords dates pages visits devices locations)
  else
    none

/-- One invocation of the callback as a step on the program state: the
observable state is the global DataFrame `df`.  The callback only binds
a copy (`filtered_df = df.copy()`, line 87) and never assigns `df`, so
the state component after the call is the same `df` value. -/
def update_dashboard_step (df : List Record)
    (selected_devices selected_locations : Option (List String)) :
    List Record × DashboardData :=
  (df, update_dashboard df selected_devices selected_locations)

/-- Run a sequence of callback invocations, threading the global
DataFrame through each step. -/
def runCallbacks (df : List Record) :
    List (Option (List String) × Option (List String)) → List Record
  | [] => df
  | c :: cs => runCallbacks (update_dashboard_step df c.1 c.2).1 cs

/-- The three-record example dataset of the specification:
(2025-07-01, "Home", 10, "Desktop", "USA"),
(2025-07-01, "Products", 5, "Mobile", "USA"),
(2025-07-02, "Home", 20, "Desktop", "UK"). -/
def exampleDf : List Record :=
  [⟨20250701, "Home", 10, "Desktop", "USA"⟩,
   ⟨20250701, "Products", 5, "Mobile", "USA"⟩,
   ⟨20250702, "Home", 20, "Desktop", "UK"⟩]

/-- A dataset whose encounter order of pages (Beta, then Alpha) differs
from alphabetical order, with equal visit totals for both pages. -/
def tieDf : List Record :=
  [⟨20250701, "Beta", 10, "Desktop", "USA"⟩,
   ⟨20250701, "Alpha", 10, "Desktop", "USA"⟩]

/-! ### General lemmas about `keyTotal` and `groupSum` -/

theorem keyTotal_nil {α : Type} [DecidableEq α] (key : Record → α) (k : α) :
    keyTotal key [] k = 0 := rfl

theorem keyTotal_cons {α : Type} [DecidableEq α] (key : Record → α) (r : Record)
    (df : List Record) (k : α) :
    keyTotal key (r :: df) k = (if key r = k then r.visits else 0) + keyTotal key df k := by
  by_cases h : key r = k <;> simp [keyTotal, List.filter_cons, h]

theorem sum_map_ite {α : Type} [DecidableEq α] (ks : List α) (x : α) (v : Nat)
    (hnd : ks.Nodup) (hx : x ∈ ks) :
    (ks.map (fun k => if x = k then v else 0)).sum = v := by
  induction ks with
  | nil => simp at hx
  | cons a t ih =>
    rcases List.mem_cons.mp hx with h | h
    · subst h
      have hxt : x ∉ t := (List.nodup_cons.mp hnd).1
      have : (t.map (fun k => if x = k then v else 0)).sum = 0 := by
        rw [List.sum_eq_zero]
        intro y hy
        rcases List.mem_map.mp hy with ⟨k, hk, hk2⟩
        have : x ≠ k := fun h => hxt (h ▸ hk)
        simpa [this] using hk2.symm
      simp [this]
    · have hne : x ≠ a := by
        rintro rfl
        exact (List.nodup_cons.mp hnd).1 h
      simp [hne, ih (List.nodup_cons.mp hnd).2 h]

theorem sum_map_addfun {α : Type} (ks : List α) (f g : α → Nat) :
    (ks.map (fun k => f k + g k)).sum = (ks.map f).sum + (ks.map g).sum := by
  induction ks with
  | nil => simp
  | cons a t ih => simp [ih]; omega

/-- Summing the per-key group totals over any duplicate-free key list
covering the data recovers the total of `visits` over the data. -/
theorem sum_keyTotal {α : Type} [DecidableEq α] (key : Record → α) (df : List Record)
    (ks : List α) (hnd : ks.Nodup) (hcov : ∀ r ∈ df, key r ∈ ks) :
    (ks.map (keyTotal key df)).sum = (df.map Record.visits).sum := by
  induction df with
  | nil =>
    have h0 : ∀ x ∈ ks.map (keyTotal key []), x = 0 := by
      intro x hx
      rcases List.mem_map.mp hx with ⟨k, _, rfl⟩
      rfl
    simp [List.sum_eq_zero h0]
  | cons r t ih =>
    have hcov' : ∀ x ∈ t, key x ∈ ks := fun x hx => hcov x (List.mem_cons_of_mem _ hx)
    have h1 : (ks.map (keyTotal key (r :: t))).sum =
        (ks.map (fun k => if key r = k then r.visits else 0)).sum +
          (ks.map (keyTotal key t)).sum := by
      have : ks.map (keyTotal key (r :: t)) =
          ks.map (fun k => (if key r = k then r.visits else 0) + keyTotal key t k) := by
        apply List.map_congr_left
        intro k _
        exact keyTotal_cons key r t k
      rw [this, sum_map_addfun]
    rw [h1, sum_map_ite ks (key r) r.visits hnd (hcov r (List.mem_cons_self r t)),
      ih hcov']
    simp

theorem groupSum_fst {α : Type} [DecidableEq α] [LinearOrder α] (key : Record → α)
    (df : List Record) :
    (groupSum key df).map Prod.fst = (df.map key).dedup.insertionSort (· ≤ ·) := by
  unfold groupSum
  rw [List.map_map]
  simp [Function.comp_def]

theorem groupSum_keys_perm_dedup {α : Type} [DecidableEq α] [LinearOrder α] (key : Record → α)
    (df : List Record) :
    List.Perm ((groupSum key df).map Prod.fst) ((df.map key).dedup) := by
  rw [groupSum_fst]
  exact List.perm_insertionSort _ _

theorem groupSum_keys_nodup {α : Type} [DecidableEq α] [LinearOrder α] (key : Record → α)
    (df : List Record) :
    ((groupSum key df).map Prod.fst).Nodup :=
  (groupSum_keys_perm_dedup key df).nodup_iff.mpr (List.nodup_dedup _)

theorem groupSum_mem_fst {α : Type} [DecidableEq α] [LinearOrder α] (key : Record → α)
    (df : List Record) (k : α) :
    k ∈ (groupSum key df).map Prod.fst ↔ k ∈ df.map key := by
  rw [(groupSum_keys_perm_dedup key df).mem_iff]
  exact List.mem_dedup

theorem groupSum_sorted_lt {α : Type} [DecidableEq α] [LinearOrder α] (key : Record → α)
    (df : List Record) :
    (groupSum key df).Pairwise (fun p q => p.1 < q.1) := by
  have hkeys : ((df.map key).dedup.insertionSort (· ≤ ·)).Sorted (· < ·) := by
    apply List.Sorted.lt_of_le
    · exact List.sorted_insertionSort _ _
    · exact ((List.perm_insertionSort _ _).nodup_iff).mpr (List.nodup_dedup _)
  unfold groupSum
  rw [List.pairwise_map]
  exact hkeys

/-- Conservation of counts for one grouped table. -/
theorem groupSum_total {α : Type} [DecidableEq α] [LinearOrder α] (key : Record → α)
    (df : List Record) :
    ((groupSum key df).map Prod.snd).sum = (df.map Record.visits).sum := by
  have h1 : (groupSum key df).map Prod.snd =
      ((df.map key).dedup.insertionSort (· ≤ ·)).map (keyTotal key df) := by
    unfold groupSum
    rw [List.map_map]
    rfl
  have h2 : List.Perm (((df.map key).dedup.insertionSort (· ≤ ·)).map (keyTotal key df))
      (((df.map key).dedup).map (keyTotal key df)) :=
    (List.perm_insertionSort _ _).map _
  rw [h1, h2.sum_eq]
  exact sum_keyTotal key df _ (List.nodup_dedup _)
    (fun r hr => List.mem_dedup.mpr (List.mem_map_of_mem key hr))

/-! ### The descending `sort_values` -/

theorem sort_values_desc_perm (l : List (String × Nat)) :
    List.Perm (sort_values_desc l) l :=
  ((List.reverse_perm _).trans (List.perm_insertionSort _ _)).trans (List.reverse_perm l)

/-- Stability auxiliary: inserting a row whose page is strictly larger
than every page of a list sorted by (visits ascending, page descending
on ties) keeps that order. -/
theorem orderedInsert_pairwise_visits_lex (x : String × Nat) (l : List (String × Nat))
    (hl : l.Pairwise (fun p q => p.2 < q.2 ∨ (p.2 = q.2 ∧ q.1 < p.1)))
    (hx : ∀ y ∈ l, y.1 < x.1) :
    (List.orderedInsert (fun p q => p.2 ≤ q.2) x l).Pairwise
      (fun p q => p.2 < q.2 ∨ (p.2 = q.2 ∧ q.1 < p.1)) := by
  induction l with
  | nil => simp [List.orderedInsert]
  | cons b t ih =>
    rw [List.orderedInsert]
    by_cases h : x.2 ≤ b.2
    · rw [if_pos h]
      constructor
      · intro y hy
        rcases List.mem_cons.mp hy with rfl | hyt
        · rcases lt_or_eq_of_le h with h' | h'
          · exact Or.inl h'
          · exact Or.inr ⟨h', hx y (List.mem_cons_self _ _)⟩
        · have hby := (List.pairwise_cons.mp hl).1 y hyt
          have hy2 : x.2 ≤ y.2 := by
            rcases hby with h2 | ⟨h2, _⟩
            · exact le_trans h (le_of_lt h2)
            · exact le_trans h (le_of_eq h2)
          rcases lt_or_eq_of_le hy2 with h' | h'
          · exact Or.inl h'
          · exact Or.inr ⟨h', hx y (List.mem_cons_of_mem _ hyt)⟩
      · exact hl
    · rw [if_neg h]
      constructor
      · intro y hy
        have hmem : y ∈ x :: t :=
          (List.perm_orderedInsert (fun p q => p.2 ≤ q.2) x t).mem_iff.mp hy
        rcases List.mem_cons.mp hmem with rfl | hyt
        · exact Or.inl (lt_of_not_le h)
        · exact (List.pairwise_cons.mp hl).1 y hyt
      · exact ih (List.pairwise_cons.mp hl).2
          (fun y hy => hx y (List.mem_cons_of_mem _ hy))

/-- Stability of the ascending insertion sort on the `visits` column:
applied to rows with strictly descending pages, the result is sorted by
visits ascending with ties in descending page order. -/
theorem insertionSort_pairwise_visits_lex (l : List (String × Nat))
    (hl : l.Pairwise (fun p q => q.1 < p.1)) :
    (List.insertionSort (fun p q => p.2 ≤ q.2) l).Pairwise
      (fun p q => p.2 < q.2 ∨ (p.2 = q.2 ∧ q.1 < p.1)) := by
  induction l with
  | nil => simp [List.insertionSort]
  | cons x xs ih =>
    rw [List.insertionSort]
    apply orderedInsert_pairwise_visits_lex
    · exact ih (List.pairwise_cons.mp hl).2
    · intro y hy
      have : y ∈ xs :=
        (List.perm_insertionSort (fun p q => p.2 ≤ q.2) xs).mem_iff.mp hy
      exact (List.pairwise_cons.mp hl).1 y this

/-! ### Lemmas about `filterRecords` -/

/-- A record surviving the filter with a truthy device selection has
its device in the selected list. -/
theorem filterRecords_device_mem (df : List Record) (devs locs : Option (List String))
    (hd : truthy devs = true) (r : Record) (hr : r ∈ filterRecords df devs locs) :
    r.device ∈ devs.getD [] := by
  unfold filterRecords at hr
  rw [hd] at hr
  by_cases hl : truthy locs = true
  · rw [hl] at hr
    simp only [if_true] at hr
    have h1 := (List.mem_filter.mp hr).1
    have h2 := (List.mem_filter.mp h1).2
    simpa using h2
  · rw [Bool.not_eq_true] at hl
    rw [hl] at hr
    simp only [Bool.false_eq_true, if_false, if_true] at hr
    have h2 := (List.mem_filter.mp hr).2
    simpa using h2

/-- A record surviving the filter with a truthy location selection has
its location in the selected list. -/
theorem filterRecords_location_mem (df : List Record) (devs locs : Option (List String))
    (hl : truthy locs = true) (r : Record) (hr : r ∈ filterRecords df devs locs) :
    r.location ∈ locs.getD [] := by
  unfold filterRecords at hr
  rw [hl] at hr
  simp only [if_true] at hr
  have h2 := (List.mem_filter.mp hr).2
  simpa using h2

/-- A falsy selection on both dimensions leaves the dataset unfiltered. -/
theorem filterRecords_falsy (df : List Record) (devs locs : Option (List String))
    (hd : truthy devs = false) (hl : truthy locs = false) :
    filterRecords df devs locs = df := by
  unfold filterRecords
  rw [hd, hl]
  simp

/-! ### Claim theorems -/

/-- Claim C1 (conservation of counts): for every dataset and every
filter selection, the visit totals of `trend`, of `topPages` and of
`deviceShare` each sum to the sum of `visits` over the records
surviving the filter, hence all three grand totals coincide. -/
theorem conservation_of_counts (df : List Record) (devs locs : Option (List String)) :
    (((update_dashboard df devs locs).trend.map Prod.snd).sum =
        ((filterRecords df devs locs).map Record.visits).sum) ∧
    (((update_dashboard df devs locs).topPages.map Prod.snd).sum =
        ((filterRecords df devs locs).map Record.visits).sum) ∧
    (((update_dashboard df devs locs).deviceShare.map Prod.snd).sum =
        ((filterRecords df devs locs).map Record.visits).sum) := by
  refine ⟨groupSum_total Record.date _, ?_, groupSum_total Record.device _⟩
  show ((sort_values_desc (groupSum Record.page (filterRecords df devs locs))).map
      Prod.snd).sum = _
  rw [((sort_values_desc_perm (groupSum Record.page (filterRecords df devs locs))).map
    Prod.snd).sum_eq]
  exact groupSum_total Record.page _

/-- Claim C2, corrected: `topPages` is sorted by total visits
descending, and pages with equal totals appear in ascending page-label
order (the order of the pandas groupby keys), not in dataset encounter
order. -/
theorem topPages_sorted (df : List Record) (devs locs : Option (List String)) :
    (update_dashboard df devs locs).topPages.Pairwise
      (fun p q => q.2 < p.2 ∨ (q.2 = p.2 ∧ p.1 < q.1)) := by
  show (sort_values_desc (groupSum Record.page (filterRecords df devs locs))).Pairwise _
  unfold sort_values_desc
  rw [List.pairwise_reverse]
  apply insertionSort_pairwise_visits_lex
  rw [List.pairwise_reverse]
  exact groupSum_sorted_lt Record.page _

/-- Claim C2, counterexample: in `tieDf` the pages are encountered in
the order Beta, Alpha and have equal totals, yet the callback outputs
Alpha before Beta, so ties do not follow encounter order. -/
theorem topPages_tie_encounter_cex :
    tieDf.map Record.page = ["Beta", "Alpha"] ∧
    (update_dashboard tieDf none none).topPages = [("Alpha", 10), ("Beta", 10)] ∧
    (update_dashboard tieDf none none).topPages ≠ [("Beta", 10), ("Alpha", 10)] := by
  have hnot : ¬ (("Beta" : String) ≤ "Alpha") := by
    rw [not_le, String.lt_iff_toList_lt]
    decide
  have h1 : (tieDf.map Record.page).dedup = ["Beta", "Alpha"] := by decide
  have hsort : (["Beta", "Alpha"] : List String).insertionSort (· ≤ ·) = ["Alpha", "Beta"] := by
    simp [List.insertionSort, List.orderedInsert, hnot]
  have h3 : groupSum Record.page tieDf = [("Alpha", 10), ("Beta", 10)] := by
    unfold groupSum
    rw [h1, hsort]
    decide
  have h4 : (update_dashboard tieDf none none).topPages = [("Alpha", 10), ("Beta", 10)] := by
    show sort_values_desc (groupSum Record.page (filterRecords tieDf none none)) = _
    have hfilt : filterRecords tieDf none none = tieDf := rfl
    rw [hfilt, h3]
    decide
  exact ⟨rfl, h4, by rw [h4]; decide⟩

/-- Claim C3: `trend` is sorted by date in strictly ascending order and
carries exactly one entry per distinct date of the filtered selection
(its dates are duplicate-free and are exactly the dates occurring in
the surviving records). -/
theorem trend_sorted_and_complete (df : List Record) (devs locs : Option (List String)) :
    (update_dashboard df devs locs).trend.Pairwise (fun p q => p.1 < q.1) ∧
    ((update_dashboard df devs locs).trend.map Prod.fst).Nodup ∧
    (∀ d, d ∈ (update_dashboard df devs locs).trend.map Prod.fst ↔
      d ∈ (filterRecords df devs locs).map Record.date) :=
  ⟨groupSum_sorted_lt Record.date _, groupSum_keys_nodup Record.date _,
    fun d => groupSum_mem_fst Record.date _ d⟩

/-- Claim C4: an empty filter selection — `None` or the empty list on
each dimension — reproduces the three aggregate tables of the entire
dataset. -/
theorem empty_filter_full_aggregates (df : List Record) (devs locs : Option (List String))
    (hd : devs = none ∨ devs = some []) (hl : locs = none ∨ locs = some []) :
    update_dashboard df devs locs =
      { trend := groupSum Record.date df
        topPages := sort_values_desc (groupSum Record.page df)
        deviceShare := groupSum Record.device df } := by
  have h1 : truthy devs = false := by rcases hd with rfl | rfl <;> rfl
  have h2 : truthy locs = false := by rcases hl with rfl | rfl <;> rfl
  simp only [update_dashboard]
  rw [filterRecords_falsy df devs locs h1 h2]

/-- Witness for claim C4 at a concrete dataset and the concrete empty
selections `some []` and `none`. -/
theorem empty_filter_full_aggregates_witness :
    update_dashboard exampleDf (some []) none =
      { trend := groupSum Record.date exampleDf
        topPages := sort_values_desc (groupSum Record.page exampleDf)
        deviceShare := groupSum Record.device exampleDf } :=
  empty_filter_full_aggregates exampleDf (some []) none (Or.inr rfl) (Or.inl rfl)

/-- Claim C5: a non-empty device selection matching no record of the
dataset yields three empty aggregate tables; the callback is a total
function, so no error is raised. -/
theorem unmatched_filter_empty_outputs (df : List Record) (D : List String)
    (locs : Option (List String)) (hne : D ≠ [])
    (hmiss : ∀ r ∈ df, r.device ∉ D) :
    update_dashboard df (some D) locs =
      { trend := [], topPages := [], deviceShare := [] } := by
  have ht : truthy (some D) = true := by
    cases D with
    | nil => exact absurd rfl hne
    | cons a t => rfl
  have hdev : df.filter
      (fun r => ((some D : Option (List String)).getD []).contains r.device) = [] := by
    rw [List.filter_eq_nil_iff]
    intro r hr
    simpa using hmiss r hr
  have hf : filterRecords df (some D) locs = [] := by
    unfold filterRecords
    rw [ht]
    by_cases hl : truthy locs = true
    · simp [hl, hdev]
      exact fun a ha _ => hmiss a ha
    · rw [Bool.not_eq_true] at hl
      simp [hl, hdev]
      exact fun a ha => hmiss a ha
  simp only [update_dashboard]
  rw [hf]
  rfl

/-- Witness for claim C5: filtering the example dataset by the device
value TV, absent from the dataset, yields three empty tables. -/
theorem unmatched_filter_empty_outputs_witness :
    update_dashboard exampleDf (some ["TV"]) none =
      { trend := [], topPages := [], deviceShare := [] } :=
  unmatched_filter_empty_outputs exampleDf ["TV"] none (by decide) (by decide)

/-- Claim C6: on the specification's three-record dataset with the
device filter Desktop, the callback produces exactly the trend,
top-pages and device-share tables the specification lists. -/
theorem spec_example_aggregates :
    update_dashboard exampleDf (some ["Desktop"]) none =
      { trend := [(20250701, 10), (20250702, 20)]
        topPages := [("Home", 30)]
        deviceShare := [("Desktop", 30)] } := by
  decide

/-- Claim C7, counterexample: constructing the base DataFrame from five
empty columns (an empty sequence of records) succeeds and yields the
empty dataset instead of failing. -/
theorem mkDataFrame_empty_succeeds :
    mkDataFrame [] [] [] [] [] = some [] := by
  decide

/-- Claim C7, corrected: `pd.DataFrame` performs no emptiness check;
construction succeeds exactly when the five columns have equal lengths,
and in particular it succeeds on the empty column family. -/
theorem mkDataFrame_isSome_iff (dates : List Nat) (pages : List String) (visits : List Nat)
    (devices locations : List String) :
    (mkDataFrame dates pages visits devices locations).isSome = true ↔
      (dates.length = pages.length ∧ dates.length = visits.length ∧
        dates.length = devices.length ∧ dates.length = locations.length) := by
  unfold mkDataFrame
  split_ifs with h
  · exact iff_of_true (by simp) h
  · exact iff_of_false (by simp) h

/-- Claim C8: the callback never mutates the base DataFrame: one step
returns the same `df`, and any sequence of calls, in any order, leaves
the observable dataset identical. -/
theorem base_dataset_unchanged (df : List Record) (devs locs : Option (List String))
    (cs : List (Option (List String) × Option (List String))) :
    (update_dashboard_step df devs locs).1 = df ∧ runCallbacks df cs = df := by
  refine ⟨rfl, ?_⟩
  induction cs with
  | nil => rfl
  | cons c t ih => exact ih

/-- Claim C9: each of the three output tables has pairwise-distinct
keys: no date repeats in `trend`, no page in `topPages`, no device in
`deviceShare`. -/
theorem output_keys_nodup (df : List Record) (devs locs : Option (List String)) :
    ((update_dashboard df devs locs).trend.map Prod.fst).Nodup ∧
    ((update_dashboard df devs locs).topPages.map Prod.fst).Nodup ∧
    ((update_dashboard df devs locs).deviceShare.map Prod.fst).Nodup := by
  refine ⟨groupSum_keys_nodup Record.date _, ?_, groupSum_keys_nodup Record.device _⟩
  show ((sort_values_desc (groupSum Record.page (filterRecords df devs locs))).map
      Prod.fst).Nodup
  exact ((sort_values_desc_perm (groupSum Record.page (filterRecords df devs locs))).map
    Prod.fst).nodup_iff.mpr (groupSum_keys_nodup Record.page _)

/-- Claim C10: with a non-empty selected device list `D` every key of
`deviceShare` lies in `D`, and symmetrically with a non-empty selected
location list `L` every surviving record's location lies in `L`. -/
theorem filter_keys_subset (df : List Record) (devs locs : Option (List String))
    (D L : List String) :
    (devs = some D → D ≠ [] →
      ∀ k ∈ (update_dashboard df devs locs).deviceShare.map Prod.fst, k ∈ D) ∧
    (locs = some L → L ≠ [] →
      ∀ r ∈ filterRecords df devs locs, r.location ∈ L) := by
  constructor
  · rintro rfl hne k hk
    have hkmem : k ∈ (filterRecords df (some D) locs).map Record.device :=
      (groupSum_mem_fst Record.device _ k).mp hk
    rcases List.mem_map.mp hkmem with ⟨r, hr, rfl⟩
    have ht : truthy (some D) = true := by
      cases D with
      | nil => exact absurd rfl hne
      | cons a t => rfl
    simpa using filterRecords_device_mem df (some D) locs ht r hr
  · rintro rfl hne r hr
    have ht : truthy (some L) = true := by
      cases L with
      | nil => exact absurd rfl hne
      | cons a t => rfl
    simpa using filterRecords_location_mem df devs (some L) ht r hr

/-- Witness for claim C10: filtering the example dataset by device
Desktop and location USA puts the device key Desktop, the only key of
the resulting `deviceShare` table, in the selected device list. -/
theorem filter_keys_subset_witness : "Desktop" ∈ ["Desktop"] :=
  (filter_keys_subset exampleDf (some ["Desktop"]) (some ["USA"]) ["Desktop"] ["USA"]).1
    rfl (by decide) "Desktop" (by decide)
